import Mathlib

/-!
# Verification of the aws-usage-analyzer collection pipeline

Shallow embedding of the Go sources of `momentohq/aws-usage-analyzer`:
resource discovery (`internal/resources`), the CloudWatch metric fetcher and
its bounded-concurrency scheduler (`internal/metrics/metrics.go`), and the
report writer (`internal/handlers/cli_handler.go`).

Modelling conventions:
* Go strings are Lean `String`; `map[string]string` is an association list
  looked up with Go's zero-value-on-miss semantics (`mapGet`).
* `float64` metric samples are opaque pass-through data for this program
  (never inspected arithmetically), embedded as `Int`.
* Go maps iterated with `range` have unspecified order; they are embedded as
  association lists, fixing one order.  No claim below depends on the order.
* Fallible AWS calls are functions into `Except String _`; the CloudWatch
  client is an arbitrary such function (a mock collaborator).
* The unbounded `for {}` pagination loops are given explicit fuel; theorems
  about them hypothesise enough fuel for the pages the mock client serves.
-/

/-- Go's `strings.TrimPrefix`: drop `pre` from the front of `s` when it is a
prefix, otherwise return `s` unchanged.  (Implemented on the character lists
so the kernel can evaluate it on literals.) -/
def trimPrefixGo (s pre : String) : String :=
  if pre.data.isPrefixOf s.data then ⟨s.data.drop pre.data.length⟩ else s

/-- Go's `strings.Split(s, sep)` for the one-character separators this code
base uses (`"-"`), on character lists: splits around each occurrence of the
separator; the empty string yields `[[]]`, matching Go's `[""]`. -/
def splitChars (sep : Char) : List Char → List (List Char)
  | [] => [[]]
  | c :: cs =>
    if c = sep then
      [] :: splitChars sep cs
    else
      match splitChars sep cs with
      | r :: rs => (c :: r) :: rs
      | [] => [[c]]

/-- Go's `strings.Split(s, "-")`. -/
def splitDash (s : String) : List String :=
  (splitChars '-' s.data).map List.asString

/-- Go's `strconv.FormatBool`. -/
def formatBool (b : Bool) : String :=
  if b then "true" else "false"

/-- Go map read `m[k]` on a `map[string]string`: the zero value `""` when the
key is absent. -/
def mapGet (m : List (String × String)) (k : String) : String :=
  match m.find? (fun p => p.1 == k) with
  | some p => p.2
  | none => ""

/-- `internal/resources`: resource type constants. -/
def AwsElasticacheRedisNode : String := "AWS::Elasticache::RedisNode"

def AwsElasticacheMemcachedNode : String := "AWS::Elasticache::MemcachedNode"

def AwsDynamoDbTable : String := "AWS::DynamoDB::Table"

def AwsDynamoDbGsi : String := "AWS::DynamoDB::GSI"

/-- `resources.MetricBlob`: one recorded series. -/
structure MetricBlob where
  name : String
  values : List Int
deriving DecidableEq

/-- `resources.ResourceSummary`.  The Go struct also carries a `Resource`
capability pointer used only for `GetMetricTargets` dispatch; dispatch is
embedded below as `getMetricTargets` on the `type` tag. -/
structure ResourceSummary where
  id : String
  type : String
  additionalData : List (String × String)
  metrics : List MetricBlob
deriving DecidableEq

/-- CloudWatch `types.Dimension`. -/
structure Dimension where
  name : String
  value : String
deriving DecidableEq

/-- `resources.ResourceMetricTargets`.  (`nspace` embeds the Go field
`Namespace`; `namespace` is reserved in Lean.) -/
structure ResourceMetricTargets where
  nspace : String
  dimensions : List Dimension
  targets : List (String × List String)
deriving DecidableEq

/-- `cacheMetricsToGet` from `internal/resources` (Elasticache statistic
groups). -/
def cacheMetricsToGet : List (String × List String) :=
  [("Sum",
    ["NetworkBytesIn", "NetworkBytesOut",
     "GeoSpatialBasedCmds", "EvalBasedCmds", "GetTypeCmds", "HashBasedCmds",
     "JsonBasedCmds", "KeyBasedCmds", "ListBasedCmds", "SetBasedCmds",
     "SetTypeCmds", "StringBasedCmds", "PubSubBasedCmds",
     "SortedSetBasedCmds", "StreamBasedCmds"]),
   ("Average", ["DB0AverageTTL"]),
   ("Maximum",
    ["CurrConnections", "NewConnections",
     "EngineCPUUtilization", "CPUUtilization", "FreeableMemory",
     "BytesUsedForCache", "DatabaseMemoryUsagePercentage", "CurrItems",
     "KeysTracked", "Evictions", "CacheHitRate"])]

/-- `ddbTableMetricsToGet` (DynamoDB table statistic groups). -/
def ddbTableMetricsToGet : List (String × List String) :=
  [("Sum",
    ["ConsumedReadCapacityUnits", "ConsumedWriteCapacityUnits",
     "ProvisionedReadCapacityUnits", "ProvisionedWriteCapacityUnits",
     "TimeToLiveDeletedItemCount"])]

/-- `ddbGSIMetricsToGet` (DynamoDB GSI statistic groups, no TTL metric). -/
def ddbGSIMetricsToGet : List (String × List String) :=
  [("Sum",
    ["ConsumedReadCapacityUnits", "ConsumedWriteCapacityUnits",
     "ProvisionedReadCapacityUnits", "ProvisionedWriteCapacityUnits"])]

/-- `Elasticache.GetMetricTargets`. -/
def elasticacheGetMetricTargets (r : ResourceSummary) : ResourceMetricTargets :=
  if r.type = AwsElasticacheRedisNode then
    { nspace := "AWS/ElastiCache"
      dimensions :=
        [ -- for redis metrics full node id is needed for cluster name
          { name := "CacheClusterId", value := r.id },
          -- for redis metrics cacheNodeID is always hard coded to 0001
          { name := "CacheNodeId", value := "0001" } ]
      targets := cacheMetricsToGet }
  else
    { nspace := "AWS/ElastiCache"
      dimensions :=
        [ { name := "CacheClusterId", value := mapGet r.additionalData "cluster_id" },
          { name := "CacheNodeId", value := r.id } ]
      targets := cacheMetricsToGet }

/-- `DynamoDb.GetMetricTargets`. -/
def dynamoDbGetMetricTargets (r : ResourceSummary) : ResourceMetricTargets :=
  if r.type = AwsDynamoDbGsi then
    { nspace := "AWS/DynamoDB"
      dimensions :=
        [ { name := "TableName", value := r.id },
          { name := "GlobalSecondaryIndexName",
            value := mapGet r.additionalData "gsi_name" } ]
      targets := ddbGSIMetricsToGet }
  else
    { nspace := "AWS/DynamoDB"
      dimensions :=
        [ { name := "TableName", value := r.id } ]
      targets := ddbTableMetricsToGet }

/-- `resource.Resource.GetMetricTargets(resource)`: the capability pointer is
set at discovery time to the descriptor that created the summary; embedded as
dispatch on the summary's `type` tag. -/
def getMetricTargets (r : ResourceSummary) : ResourceMetricTargets :=
  if r.type = AwsDynamoDbTable ∨ r.type = AwsDynamoDbGsi then
    dynamoDbGetMetricTargets r
  else
    elasticacheGetMetricTargets r

/-! ## Elasticache discovery (`Elasticache.GetAll`) -/

/-- One entry of `DescribeCacheClustersOutput.CacheClusters[i].CacheNodes`. -/
structure CacheNode where
  cacheNodeId : String
  customerAvailabilityZone : String
deriving DecidableEq

/-- One entry of `DescribeCacheClustersOutput.CacheClusters`. -/
structure CacheCluster where
  cacheClusterId : String
  replicationGroupId : Option String
  engine : String
  cacheNodeType : String
  preferredAvailabilityZone : String
  cacheNodes : List CacheNode
deriving DecidableEq

/-- Cluster-mode detection for a redis cluster, from `Elasticache.GetAll`:
with a replication group id, strip the `<rgid>-` prefix off the cluster id and
test whether what is left splits on `-` into exactly 2 chunks. -/
def clusterModeEnabledOf (c : CacheCluster) : Bool :=
  match c.replicationGroupId with
  | some g => (splitDash (trimPrefixGo c.cacheClusterId (g ++ "-"))).length == 2
  | none => false

/-- The cluster id recorded for a redis node: the replication group id when
present, otherwise the node's own cache cluster id. -/
def clusterIdOf (c : CacheCluster) : String :=
  match c.replicationGroupId with
  | some g => g
  | none => c.cacheClusterId

/-- The `ResourceSummary` that `Elasticache.GetAll` builds for a redis
cluster record. -/
def redisSummary (c : CacheCluster) : ResourceSummary :=
  { id := c.cacheClusterId
    type := AwsElasticacheRedisNode
    additionalData :=
      [("cluster_id", clusterIdOf c),
       ("engine", c.engine),
       ("cache_node_type", c.cacheNodeType),
       ("preferred_az", c.preferredAvailabilityZone),
       ("cluster_mode_enabled", formatBool (clusterModeEnabledOf c))]
    metrics := [] }

/-- The `ResourceSummary` that `Elasticache.GetAll` builds for one node of a
memcached cluster record. -/
def memcachedSummary (c : CacheCluster) (node : CacheNode) : ResourceSummary :=
  { id := node.cacheNodeId
    type := AwsElasticacheMemcachedNode
    additionalData :=
      [("cluster_id", c.cacheClusterId),
       ("engine", c.engine),
       ("cache_node_type", c.cacheNodeType),
       ("preferred_az", node.customerAvailabilityZone),
       ("cluster_mode_enabled", formatBool false)]
    metrics := [] }

/-- The `switch *c.Engine` body of `Elasticache.GetAll`: a redis record gives
one summary, a memcached record one per cache node, anything else nothing. -/
def processCluster (c : CacheCluster) : List ResourceSummary :=
  if c.engine = "redis" then
    [redisSummary c]
  else if c.engine = "memcached" then
    c.cacheNodes.map (memcachedSummary c)
  else
    []

/-- `Elasticache.GetAll` over the pages served by `DescribeCacheClusters`
(the error-free pagination path: every page is delivered). -/
def elasticacheGetAll (pages : List (List CacheCluster)) : List ResourceSummary :=
  pages.flatten.flatMap processCluster

/-! ## Metric fetch (`internal/metrics/metrics.go`, `fetchMetricsForResource`) -/

/-- One `types.MetricDataQuery` as built by `fetchMetricsForResource`
(flattened: the nested `MetricStat.Metric` fields inlined; the constant
`Period = 60*60*24` and the start/end times — computed once per statistic
group and reused verbatim on every continuation call — are omitted as they
never vary within a fetch). -/
structure MetricDataQuery where
  metricName : String
  nspace : String
  dimensions : List Dimension
  stat : String
  id : String
deriving DecidableEq

/-- One entry of `GetMetricDataOutput.MetricDataResults`. -/
structure MetricDataResult where
  id : String
  values : List Int
deriving DecidableEq

/-- CloudWatch `GetMetricDataOutput`. -/
structure GetMetricDataOutput where
  metricDataResults : List MetricDataResult
  nextToken : Option String
deriving DecidableEq

/-- CloudWatch `GetMetricDataInput` (queries plus optional continuation
token; the constant time window omitted as above). -/
structure GetMetricDataInput where
  metricDataQueries : List MetricDataQuery
  nextToken : Option String
deriving DecidableEq

/-- The CloudWatch client collaborator: any function from request to error
or page. -/
def CWClient : Type := GetMetricDataInput → Except String GetMetricDataOutput

/-- ASCII lower-casing of one character (what `strings.ToLower` does on the
ASCII metric names this program feeds it). -/
def charToLower (c : Char) : Char :=
  if 'A' ≤ c ∧ c ≤ 'Z' then Char.ofNat (c.toNat + 32) else c

/-- `strings.ToLower` on the ASCII metric names used here. -/
def toLowerGo (s : String) : String :=
  ⟨s.data.map charToLower⟩

/-- The `metricsToGrab` batch built for one statistic group: one query per
metric name, all sharing namespace, dimensions and statistic; the query id is
the lower-cased metric name. -/
def buildQueries (spec : ResourceMetricTargets) (statType : String)
    (metrics : List String) : List MetricDataQuery :=
  metrics.map fun metric =>
    { metricName := metric
      nspace := spec.nspace
      dimensions := spec.dimensions
      stat := statType
      id := toLowerGo metric }

/-- The blobs appended for one page: `Name = *metric.Id`,
`Values = metric.Values`, in `MetricDataResults` order. -/
def blobsOfResults (rs : List MetricDataResult) : List MetricBlob :=
  rs.map fun m => { name := m.id, values := m.values }

/-- Result of the inner pagination `for {}` loop: the accumulated blob list
and the number of `GetMetricData` calls made so far, tagged with how the loop
ended (`failed` = a continuation call returned an error and the whole fetch
returns early; `noFuel` = the model's fuel ran out before the mock client
stopped serving tokens). -/
inductive PageLoopResult where
  | ok (blobs : List MetricBlob) (calls : Nat)
  | failed (blobs : List MetricBlob) (calls : Nat)
  | noFuel (blobs : List MetricBlob) (calls : Nat)
deriving DecidableEq

/-- The pagination loop of `fetchMetricsForResource`: append the current
page's results; while a continuation token is present, re-issue the identical
query with that token; abort on error. -/
def pageLoop (cw : CWClient) (queries : List MetricDataQuery) :
    Nat → GetMetricDataOutput → List MetricBlob → Nat → PageLoopResult
  | _, { metricDataResults := results, nextToken := none }, acc, calls =>
    .ok (acc ++ blobsOfResults results) calls
  | 0, { metricDataResults := results, nextToken := some _ }, acc, calls =>
    .noFuel (acc ++ blobsOfResults results) calls
  | fuel + 1, { metricDataResults := results, nextToken := some tok }, acc, calls =>
    match cw { metricDataQueries := queries, nextToken := some tok } with
    | .error _ => .failed (acc ++ blobsOfResults results) (calls + 1)
    | .ok next =>
      pageLoop cw queries fuel next (acc ++ blobsOfResults results) (calls + 1)

/-- How `fetchMetricsForResource` ended: `completed` = all statistic groups
processed; `aborted` = some `GetMetricData` call errored, the error was
logged and the function returned early (remaining pages and statistic groups
skipped). -/
inductive FetchOutcome where
  | completed
  | aborted
  | noFuel
deriving DecidableEq

/-- The outer `for statType, metrics := range targets.Targets` loop of
`fetchMetricsForResource`: per statistic group, build the batch, issue the
first query, then paginate; an error anywhere returns early, keeping the
blobs appended so far. -/
def fetchTargets (cw : CWClient) (spec : ResourceMetricTargets) (fuel : Nat) :
    List (String × List String) → List MetricBlob → Nat →
    List MetricBlob × Nat × FetchOutcome
  | [], acc, calls => (acc, calls, .completed)
  | (statType, metrics) :: rest, acc, calls =>
    match cw { metricDataQueries := buildQueries spec statType metrics
               nextToken := none } with
    | .error _ => (acc, calls + 1, .aborted)
    | .ok data =>
      match pageLoop cw (buildQueries spec statType metrics) fuel data acc (calls + 1) with
      | .ok acc2 calls2 => fetchTargets cw spec fuel rest acc2 calls2
      | .failed acc2 calls2 => (acc2, calls2, .aborted)
      | .noFuel acc2 calls2 => (acc2, calls2, .noFuel)

/-- `fetchMetricsForResource`: compute the target spec, run every statistic
group, and append the resulting blobs onto the resource's `Metrics` slice.
Also reports the total number of `GetMetricData` calls and the outcome. -/
def fetchMetricsForResource (cw : CWClient) (fuel : Nat) (r : ResourceSummary) :
    ResourceSummary × Nat × FetchOutcome :=
  let spec := getMetricTargets r
  let out := fetchTargets cw spec fuel spec.targets r.metrics 0
  ({ r with metrics := out.1 }, out.2.1, out.2.2)

/-! ## Report writing (`internal/handlers/cli_handler.go`, `writeOutResults`) -/

/-- One data row of `results.csv`.  The Go code serialises `additionalData`
and `metrics` to JSON strings inside the row; both serialisations are
injective on the data they receive, so rows keep the structured values (CSV
and JSON encoding are thin I/O out of the verified core). -/
structure CsvRow where
  resourceId : String
  rtype : String
  additionalData : List (String × String)
  metrics : List MetricBlob
deriving DecidableEq

/-- The row written for one `ResourceSummary`. -/
def rowOf (r : ResourceSummary) : CsvRow :=
  { resourceId := r.id, rtype := r.type
    additionalData := r.additionalData, metrics := r.metrics }

/-- `writeOutResults`: one row per resource, in input order (the constant
header row is not modelled). -/
def writeOutResults (results : List ResourceSummary) : List CsvRow :=
  results.map rowOf

/-- The per-resource fetch work of a whole run, resource by resource: each
summary is handed to `fetchMetricsForResource` and keeps whatever metrics
that call accumulated.  (Which task runs when is the scheduler's business,
modelled separately below; each summary is touched by exactly one task.) -/
def runFetch (cw : CWClient) (fuel : Nat) (rs : List ResourceSummary) :
    List ResourceSummary :=
  rs.map fun r => (fetchMetricsForResource cw fuel r).1

/-! ## DynamoDB discovery (`DynamoDb.GetAll`) -/

/-- `ProvisionedThroughputDescription` (the three fields the code reads). -/
structure ProvisionedThroughputDesc where
  readCapacityUnits : Int
  writeCapacityUnits : Int
  numberOfDecreasesToday : Int
deriving DecidableEq

/-- One `GlobalSecondaryIndexDescription` (the fields the code reads). -/
structure GsiDescription where
  indexName : String
  itemCount : Int
  indexSizeBytes : Int
  provisionedThroughput : Option ProvisionedThroughputDesc
  projectionType : Option String
deriving DecidableEq

/-- A `DescribeTable` response (the fields the code reads;
`billingMode` is `BillingModeSummary.BillingMode` when the summary is
present). -/
structure TableDescription where
  itemCount : Int
  tableSizeBytes : Int
  billingMode : Option String
  provisionedThroughput : Option ProvisionedThroughputDesc
  globalSecondaryIndexes : List GsiDescription
deriving DecidableEq

/-- The three provisioned-throughput metadata entries, in the order the code
assigns them. -/
def throughputEntries (t : ProvisionedThroughputDesc) : List (String × String) :=
  [("p_throughput_write_units", toString t.writeCapacityUnits),
   ("p_throughput_read_units", toString t.readCapacityUnits),
   ("p_throughput_decreases_day", toString t.numberOfDecreasesToday)]

/-- `tableMetadata` as built by `DynamoDb.GetAll` for one table
(`avg_item_size` uses Go's truncating `int64` division). -/
def tableMetadataOf (d : TableDescription) (ttlStatus : String) : List (String × String) :=
  let ttlEnabled := ttlStatus == "ENABLED"
  let avgItemSize : Int := if d.itemCount ≠ 0 then Int.tdiv d.tableSizeBytes d.itemCount else 0
  let billing := match d.billingMode with
    | some b => b
    | none => "PROVISIONED"
  [("ttl_enabled", formatBool ttlEnabled),
   ("item_count", toString d.itemCount),
   ("table_size_bytes", toString d.tableSizeBytes),
   ("avg_item_size_bytes", toString avgItemSize),
   ("billing_mode", billing)]
  ++ (match d.provisionedThroughput with
      | some t => throughputEntries t
      | none => [])
  ++ [("gsi_count", toString d.globalSecondaryIndexes.length)]

/-- `gsiMetadata` as built for one global secondary index. -/
def gsiMetadataOf (gsi : GsiDescription) : List (String × String) :=
  [("gsi_name", gsi.indexName),
   ("item_count", toString gsi.itemCount),
   ("size_bytes", toString gsi.indexSizeBytes)]
  ++ (match gsi.provisionedThroughput with
      | some t => throughputEntries t
      | none => [])
  ++ (match gsi.projectionType with
      | some p => [("projection_type", p)]
      | none => [])

/-- The `ResourceSummary` built for one GSI: note the `ID` is the parent
table's name, not the index name. -/
def gsiSummary (tableName : String) (gsi : GsiDescription) : ResourceSummary :=
  { id := tableName
    type := AwsDynamoDbGsi
    additionalData := gsiMetadataOf gsi
    metrics := [] }

/-- The `ResourceSummary` built for the table itself. -/
def tableSummary (tableName : String) (d : TableDescription) (ttlStatus : String) :
    ResourceSummary :=
  { id := tableName
    type := AwsDynamoDbTable
    additionalData := tableMetadataOf d ttlStatus
    metrics := [] }

/-- The per-table body of `DynamoDb.GetAll`: the table summary is appended
first, then the GSI summaries in index order. -/
def processTable (tableName : String) (d : TableDescription) (ttlStatus : String) :
    List ResourceSummary :=
  tableSummary tableName d ttlStatus :: d.globalSecondaryIndexes.map (gsiSummary tableName)

/-- `DynamoDb.GetAll` on the error-free path: every listed table is described
and processed in order (a describe error would abort the whole call, which no
claim here concerns). -/
def dynamoDbGetAll (tables : List (String × TableDescription × String)) :
    List ResourceSummary :=
  tables.flatMap fun t => processTable t.1 t.2.1 t.2.2

/-! ## Scheduler (`GetMetricsForResources`)

`GetMetricsForResources` is concurrent, so it is embedded as a small-step
transition system over interleavings.  The main goroutine executes, per
resource `i`, the five statements of the loop body in program order:

0. `guard <- struct{}{}`   (blocks while the buffered channel is full)
1. `go c.fetchMetricsForResource(resource)`   (spawns task `i`)
2. `wg.Done()`
3. `bar.Increment()`
4. `<-guard`

then `wg.Wait()` and returns.  Each spawned task is a separate thread that
may, at any later point, issue its first metric request (`start`) and later
complete all its statistic groups and pages (`finish`); the scheduler puts no
other synchronisation on it.  A trace is legal iff every event is enabled
when it fires (channel/wait-group semantics respected). -/

/-- `const MaxConcurrency = 3` from `internal/metrics/metrics.go`. -/
def MaxConcurrency : Nat := 3

/-- Instrumented state of one `GetMetricsForResources(resources)` call with
`n = len(resources)`.  `pc` encodes the main goroutine's position: `5*i + sub`
inside iteration `i`, `5*n` at `wg.Wait()`, `5*n + 1` after returning. -/
structure SchedState where
  n : Nat
  pc : Nat
  guard : Nat
  wgCount : Nat
  spawned : List Nat
  started : List Nat
  finished : List Nat
  progress : Nat
  returned : Bool
deriving DecidableEq

/-- State on entry: progress bar at 0, empty guard channel, `wg.Add(n)`
already executed (it precedes the loop), no tasks yet. -/
def initState (n : Nat) : SchedState :=
  { n := n, pc := 0, guard := 0, wgCount := n
    spawned := [], started := [], finished := [], progress := 0
    returned := false }

/-- One step of the main goroutine, if enabled: the five loop statements in
order, then `wg.Wait()` (enabled only when the counter is zero), then the
return.  `cap` is the guard channel's buffer capacity. -/
def mainStep (cap : Nat) (s : SchedState) : Option SchedState :=
  if s.pc = 5 * s.n + 1 then
    none
  else if s.pc = 5 * s.n then
    -- wg.Wait(): passes iff the wait-group counter is zero
    if s.wgCount = 0 then some { s with pc := s.pc + 1, returned := true } else none
  else
    match s.pc % 5 with
    | 0 => -- guard <- struct{}{}: blocks while the buffer is full
      if s.guard < cap then some { s with guard := s.guard + 1, pc := s.pc + 1 } else none
    | 1 => -- go c.fetchMetricsForResource(resource)
      some { s with spawned := s.spawned ++ [s.pc / 5], pc := s.pc + 1 }
    | 2 => -- wg.Done()
      if s.wgCount ≠ 0 then some { s with wgCount := s.wgCount - 1, pc := s.pc + 1 } else none
    | 3 => -- bar.Increment()
      some { s with progress := s.progress + 1, pc := s.pc + 1 }
    | _ => -- <-guard
      if s.guard ≠ 0 then some { s with guard := s.guard - 1, pc := s.pc + 1 } else none

/-- Interleaving events: a main-goroutine step, task `i` issuing its first
metric request, or task `i` completing its whole fetch. -/
inductive SchedEv where
  | main
  | start (i : Nat)
  | finish (i : Nat)
deriving DecidableEq

/-- One scheduler transition; `none` when the event is not enabled. -/
def stepEv (cap : Nat) (s : SchedState) : SchedEv → Option SchedState
  | .main => mainStep cap s
  | .start i =>
    if i ∈ s.spawned ∧ i ∉ s.started then
      some { s with started := s.started ++ [i] }
    else none
  | .finish i =>
    if i ∈ s.started ∧ i ∉ s.finished then
      some { s with finished := s.finished ++ [i] }
    else none

/-- Run a trace from the initial state; `some s` exactly when every event in
the trace was enabled when it fired (i.e. the trace is a legal interleaving
under Go's channel and wait-group semantics). -/
def runSched (cap n : Nat) (evs : List SchedEv) : Option SchedState :=
  evs.foldlM (stepEv cap) (initState n)

/-- Number of fetch tasks in flight: spawned goroutines that have issued
their first metric request and not yet completed. -/
def inFlight (s : SchedState) : Nat :=
  (s.started.filter (fun i => !(s.finished.contains i))).length

/-- Number of spawned goroutines whose fetch has not completed (detached
work if the call has already returned). -/
def unfinished (s : SchedState) : Nat :=
  (s.spawned.filter (fun i => !(s.finished.contains i))).length

/-! ## Concrete inputs used by the theorems below -/

/-- A scheduler trace for four resources in which the main goroutine runs its
whole loop (four iterations of the five statements) before any spawned task
gets scheduled, after which all four tasks issue their first request. -/
def fourTasksTrace : List SchedEv :=
  List.replicate 20 .main ++ [.start 0, .start 1, .start 2, .start 3]

/-- A scheduler trace for one resource in which the main goroutine runs to
completion (loop body, `wg.Wait()`, return) before the spawned task ever
runs. -/
def oneTaskTrace : List SchedEv :=
  List.replicate 6 .main

/-- Two same-replication-group redis cluster records differing only in node
id: both are discovered, carry identical `additionalData`, yet get different
dimension sets. -/
def rgNodeA : CacheCluster :=
  { cacheClusterId := "foo-001-001", replicationGroupId := some "foo"
    engine := "redis", cacheNodeType := "cache.t3.micro"
    preferredAvailabilityZone := "us-west-2a", cacheNodes := [] }

def rgNodeB : CacheCluster :=
  { cacheClusterId := "foo-002-001", replicationGroupId := some "foo"
    engine := "redis", cacheNodeType := "cache.t3.micro"
    preferredAvailabilityZone := "us-west-2a", cacheNodes := [] }

/-- The blobs one page contributes. -/
def pageBlobs (p : GetMetricDataOutput) : List MetricBlob :=
  blobsOfResults p.metricDataResults

/-- The mock client serves, after first page `d`, the chain `ps` of further
pages: each page's continuation token, re-submitted with the same query
batch, yields the next page, and the last page carries no token. -/
def chainFrom (cw : CWClient) (queries : List MetricDataQuery) :
    GetMetricDataOutput → List GetMetricDataOutput → Prop
  | d, [] => d.nextToken = none
  | d, p :: ps =>
    ∃ t, d.nextToken = some t
      ∧ cw { metricDataQueries := queries, nextToken := some t } = .ok p
      ∧ chainFrom cw queries p ps

/-- Like `chainFrom`, but after the chain `ps` the next continuation call
fails: the last chained page still carries a token whose re-submission
returns an error. -/
def chainThenFail (cw : CWClient) (queries : List MetricDataQuery) :
    GetMetricDataOutput → List GetMetricDataOutput → Prop
  | d, [] =>
    ∃ t, d.nextToken = some t
      ∧ ∃ e, cw { metricDataQueries := queries, nextToken := some t } = .error e
  | d, p :: ps =>
    ∃ t, d.nextToken = some t
      ∧ cw { metricDataQueries := queries, nextToken := some t } = .ok p
      ∧ chainThenFail cw queries p ps

/-- First page of a two-page response for a consumed-capacity metric. -/
def pageOne : GetMetricDataOutput :=
  { metricDataResults := [{ id := "consumedreadcapacityunits", values := [1, 2] }]
    nextToken := some "tok1" }

/-- Second and last page of that response. -/
def pageTwo : GetMetricDataOutput :=
  { metricDataResults := [{ id := "consumedreadcapacityunits", values := [3] }]
    nextToken := none }

/-- A client serving `pageOne` then (on its token) `pageTwo`. -/
def twoPageClient : CWClient := fun input =>
  match input.nextToken with
  | none => .ok pageOne
  | some t => if t = "tok1" then .ok pageTwo else .error "unknown token"

/-- A client serving `pageOne` and then failing every continuation call. -/
def failSecondClient : CWClient := fun input =>
  match input.nextToken with
  | none => .ok pageOne
  | some _ => .error "throttled"

/-- A discovered-shape DynamoDB table summary. -/
def ordersTable : ResourceSummary :=
  { id := "orders", type := AwsDynamoDbTable, additionalData := [], metrics := [] }

/-- A second DynamoDB table summary. -/
def usersTable : ResourceSummary :=
  { id := "users", type := AwsDynamoDbTable, additionalData := [], metrics := [] }

/-- A discovered-shape redis node summary. -/
def redisNodeRes : ResourceSummary :=
  { id := "foo-001-001", type := AwsElasticacheRedisNode
    additionalData := [("cluster_id", "foo")], metrics := [] }

/-- A client that fails every ElastiCache query on its first page and answers
every DynamoDB query with one empty, token-free page: DynamoDB fetches
complete, redis fetches abort with nothing accumulated. -/
def failCacheClient : CWClient := fun input =>
  match input.metricDataQueries with
  | q :: _ =>
    if q.nspace = "AWS/ElastiCache" then .error "throttled"
    else .ok { metricDataResults := [], nextToken := none }
  | [] => .ok { metricDataResults := [], nextToken := none }

/-- A client that fails every query outright. -/
def alwaysFailClient : CWClient := fun _ => .error "throttled"

/-! ## Theorems -/

/-- Helper: looking up `cluster_mode_enabled` in a redis summary's metadata
gives the formatted cluster-mode flag (keys are literal, so this is
definitional). -/
theorem redisSummary_clusterMode (c : CacheCluster) :
    mapGet (redisSummary c).additionalData "cluster_mode_enabled"
      = formatBool (clusterModeEnabledOf c) := rfl

/-- Helper: looking up `cluster_id` in a redis summary's metadata. -/
theorem redisSummary_clusterId (c : CacheCluster) :
    mapGet (redisSummary c).additionalData "cluster_id" = clusterIdOf c := rfl

/-- C1: the claim says at most `MaxConcurrency = 3` fetch tasks are ever
simultaneously in flight, the admission permit being released only after a
task's pages and groups complete.  The code releases the guard slot at the
bottom of the spawn loop, right after `go ...`, so the permit is never held
while a task works: with 4 resources there is a legal interleaving — the main
loop finishes before any goroutine is scheduled, then all four tasks issue
their first request — reaching 4 > 3 concurrently in-flight fetch tasks,
while the call has not yet returned. -/
theorem getMetricsForResources_capExceeded :
    (runSched MaxConcurrency 4 fourTasksTrace).map (fun s => (inFlight s, s.returned))
      = some (4, false)
    ∧ MaxConcurrency < 4 := by decide

/-- C2: the claim says the call returns only after every per-resource task
finished, and the progress counter is bumped once per resource only on
completion.  The code calls `wg.Done()` and `bar.Increment()` in the spawn
loop immediately after `go ...`, so with a single resource there is a legal
interleaving in which `wg.Wait()` passes and the call returns while the
spawned task has not even issued its first request — yet progress already
reads 1 and nothing has finished. -/
theorem getMetricsForResources_returnsWithDetachedWork :
    (runSched MaxConcurrency 1 oneTaskTrace).map
        (fun s => (s.returned, s.progress, s.finished, unfinished s))
      = some (true, 1, [], 1) := by decide

/-- C6: for a discovered redis cache cluster, cluster-mode is recorded as
enabled iff stripping the `<replication-group-id>-` prefix from the cluster
id leaves a suffix splitting into exactly 2 hyphen-delimited chunks; without
a replication group id it is recorded disabled and the recorded cluster id
falls back to the node's own id.  In particular `"foo-001-002"` with group
`"foo"` gives enabled and `"foo-001"` with group `"foo"` gives disabled. -/
theorem elasticacheGetAll_clusterModeDetection :
    (∀ c : CacheCluster, c.engine = "redis" →
      processCluster c = [redisSummary c]
      ∧ (∀ g, c.replicationGroupId = some g →
          (mapGet (redisSummary c).additionalData "cluster_mode_enabled" = "true"
            ↔ (splitDash (trimPrefixGo c.cacheClusterId (g ++ "-"))).length = 2))
      ∧ (c.replicationGroupId = none →
          mapGet (redisSummary c).additionalData "cluster_mode_enabled" = "false"
          ∧ mapGet (redisSummary c).additionalData "cluster_id" = c.cacheClusterId))
    ∧ clusterModeEnabledOf
        { cacheClusterId := "foo-001-002", replicationGroupId := some "foo",
          engine := "redis", cacheNodeType := "t",
          preferredAvailabilityZone := "z", cacheNodes := [] } = true
    ∧ clusterModeEnabledOf
        { cacheClusterId := "foo-001", replicationGroupId := some "foo",
          engine := "redis", cacheNodeType := "t",
          preferredAvailabilityZone := "z", cacheNodes := [] } = false := by
  refine ⟨fun c hc => ⟨?_, fun g hg => ?_, fun hn => ⟨?_, ?_⟩⟩, by decide, by decide⟩
  · simp [processCluster, hc]
  · have hmode : clusterModeEnabledOf c
        = ((splitDash (trimPrefixGo c.cacheClusterId (g ++ "-"))).length == 2) := by
      unfold clusterModeEnabledOf
      rw [hg]
    rw [redisSummary_clusterMode, hmode]
    constructor
    · intro h
      by_contra hne
      rw [beq_eq_false_iff_ne.mpr hne] at h
      exact absurd h (by decide)
    · intro h
      rw [h]
      rfl
  · rw [redisSummary_clusterMode]
    unfold clusterModeEnabledOf
    rw [hn]
    rfl
  · rw [redisSummary_clusterId]
    unfold clusterIdOf
    rw [hn]

/-- C6 witness: instantiating at the `"foo-001-002"` example cluster. -/
theorem elasticacheGetAll_clusterModeDetection_witness :
    mapGet (redisSummary
      { cacheClusterId := "foo-001-002", replicationGroupId := some "foo",
        engine := "redis", cacheNodeType := "t",
        preferredAvailabilityZone := "z", cacheNodes := [] }).additionalData
      "cluster_mode_enabled" = "true" := by
  exact ((elasticacheGetAll_clusterModeDetection.1 _ rfl).2.1 "foo" rfl).mpr (by decide)

/-- C7: for any resource tagged as a redis node, `Elasticache.GetMetricTargets`
returns namespace `AWS/ElastiCache` with exactly the dimension pair
`(CacheClusterId = the resource's own id, CacheNodeId = "0001")`; on a
discovered redis summary the `CacheClusterId` value is the node's own cache
cluster id, and never the replication group id whenever that differs from the
node id. -/
theorem elasticacheGetMetricTargets_redisDimensionRule :
    (∀ r : ResourceSummary, r.type = AwsElasticacheRedisNode →
      elasticacheGetMetricTargets r =
        { nspace := "AWS/ElastiCache"
          dimensions :=
            [{ name := "CacheClusterId", value := r.id },
             { name := "CacheNodeId", value := "0001" }]
          targets := cacheMetricsToGet })
    ∧ (∀ c : CacheCluster, c.engine = "redis" →
        (elasticacheGetMetricTargets (redisSummary c)).dimensions =
          [{ name := "CacheClusterId", value := c.cacheClusterId },
           { name := "CacheNodeId", value := "0001" }]
        ∧ ∀ g, c.replicationGroupId = some g → g ≠ c.cacheClusterId →
            ∀ d ∈ (elasticacheGetMetricTargets (redisSummary c)).dimensions,
              d.name = "CacheClusterId" → d.value ≠ g) := by
  constructor
  · intro r hr
    unfold elasticacheGetMetricTargets
    rw [if_pos hr]
  · intro c _
    have hdims : (elasticacheGetMetricTargets (redisSummary c)).dimensions =
        [{ name := "CacheClusterId", value := c.cacheClusterId },
         { name := "CacheNodeId", value := "0001" }] := rfl
    refine ⟨hdims, fun g _ hne d hd hname => ?_⟩
    rw [hdims] at hd
    simp only [List.mem_cons, List.mem_singleton, List.not_mem_nil, or_false] at hd
    rcases hd with hd | hd
    · rw [hd]
      exact fun h => hne h.symm
    · rw [hd] at hname
      exact absurd hname (by decide)

/-- C7 witness: a concrete redis node summary gets the hard-coded
`CacheNodeId = "0001"` pair keyed by its own node id. -/
theorem elasticacheGetMetricTargets_redisDimensionRule_witness :
    elasticacheGetMetricTargets
      { id := "foo-001-001", type := AwsElasticacheRedisNode,
        additionalData := [("cluster_id", "foo")], metrics := [] } =
      { nspace := "AWS/ElastiCache"
        dimensions :=
          [{ name := "CacheClusterId", value := "foo-001-001" },
           { name := "CacheNodeId", value := "0001" }]
        targets := cacheMetricsToGet } := by
  exact elasticacheGetMetricTargets_redisDimensionRule.1 _ rfl

/-- C8 counterexample: the claim says the dimension set is a function of
`(type, additionalData)` alone.  But two discovered redis node summaries from
the same replication group have equal type and equal `additionalData`
(cluster id, engine, node type, AZ, cluster-mode flag all agree) while
`GetMetricTargets` keys `CacheClusterId` by the summaries' differing `ID`
fields, so their dimension sets differ. -/
theorem getMetricTargets_dependsOnId :
    redisSummary rgNodeA ∈ elasticacheGetAll [[rgNodeA, rgNodeB]]
    ∧ redisSummary rgNodeB ∈ elasticacheGetAll [[rgNodeA, rgNodeB]]
    ∧ (redisSummary rgNodeA).type = (redisSummary rgNodeB).type
    ∧ (redisSummary rgNodeA).additionalData = (redisSummary rgNodeB).additionalData
    ∧ elasticacheGetMetricTargets (redisSummary rgNodeA)
        ≠ elasticacheGetMetricTargets (redisSummary rgNodeB) := by decide

/-- C8 amended: the dimension set (with namespace and targets) is a
deterministic function of `(type, id, additionalData)` — both descriptors
read nothing else from the resource. -/
theorem getMetricTargets_deterministic (r1 r2 : ResourceSummary)
    (ht : r1.type = r2.type) (hi : r1.id = r2.id)
    (ha : r1.additionalData = r2.additionalData) :
    elasticacheGetMetricTargets r1 = elasticacheGetMetricTargets r2
    ∧ dynamoDbGetMetricTargets r1 = dynamoDbGetMetricTargets r2
    ∧ getMetricTargets r1 = getMetricTargets r2 := by
  obtain ⟨i1, t1, a1, m1⟩ := r1
  obtain ⟨i2, t2, a2, m2⟩ := r2
  cases ht
  cases hi
  cases ha
  exact ⟨rfl, rfl, rfl⟩

/-- C8 amended witness: two resources equal in `(type, id, additionalData)`
but with different accumulated metrics map to the same targets. -/
theorem getMetricTargets_deterministic_witness :
    getMetricTargets
        { id := "t1", type := AwsDynamoDbTable, additionalData := [], metrics := [] }
      = getMetricTargets
        { id := "t1", type := AwsDynamoDbTable, additionalData := [],
          metrics := [{ name := "x", values := [1] }] } :=
  (getMetricTargets_deterministic _ _ rfl rfl rfl).2.2

/-- C9: every GSI summary produced by `DynamoDb.GetAll` carries the parent
table's name as its `ID` (never the index name); the index name lives only in
`additionalData["gsi_name"]`, from which `GetMetricTargets` takes the
`GlobalSecondaryIndexName` dimension; table and GSI summaries share the same
`ID` and differ in `Type`. -/
theorem dynamoDbGetAll_gsiSharesTableId (tableName : String)
    (d : TableDescription) (ttl : String) (gsi : GsiDescription)
    (hg : gsi ∈ d.globalSecondaryIndexes) :
    gsiSummary tableName gsi ∈ processTable tableName d ttl
    ∧ (gsiSummary tableName gsi).id = tableName
    ∧ (gsiSummary tableName gsi).id = (tableSummary tableName d ttl).id
    ∧ mapGet (gsiSummary tableName gsi).additionalData "gsi_name" = gsi.indexName
    ∧ (dynamoDbGetMetricTargets (gsiSummary tableName gsi)).dimensions =
        [{ name := "TableName", value := tableName },
         { name := "GlobalSecondaryIndexName", value := gsi.indexName }]
    ∧ (gsiSummary tableName gsi).type ≠ (tableSummary tableName d ttl).type := by
  refine ⟨?_, rfl, rfl, ?_, ?_, ?_⟩
  · exact List.mem_cons_of_mem _ (List.mem_map_of_mem _ hg)
  · rfl
  · rfl
  · intro h
    have h2 : AwsDynamoDbGsi = AwsDynamoDbTable := h
    exact absurd h2 (by decide)

/-- C9 witness: a concrete table with one GSI. -/
theorem dynamoDbGetAll_gsiSharesTableId_witness :
    mapGet (gsiSummary "orders"
        { indexName := "by_customer", itemCount := 7, indexSizeBytes := 700,
          provisionedThroughput := none, projectionType := some "ALL" }).additionalData
      "gsi_name" = "by_customer" :=
  (dynamoDbGetAll_gsiSharesTableId "orders"
    { itemCount := 7, tableSizeBytes := 700, billingMode := none,
      provisionedThroughput := none,
      globalSecondaryIndexes :=
        [{ indexName := "by_customer", itemCount := 7, indexSizeBytes := 700,
           provisionedThroughput := none, projectionType := some "ALL" }] }
    "ENABLED"
    { indexName := "by_customer", itemCount := 7, indexSizeBytes := 700,
      provisionedThroughput := none, projectionType := some "ALL" }
    (List.mem_singleton.mpr rfl)).2.2.2.1

/-- C10: `Elasticache.GetAll` produces summaries only for clusters whose
engine is exactly `"redis"` or `"memcached"`; any other engine value
contributes nothing, raises no error (the switch simply has no matching
case), and never reaches the report. -/
theorem elasticacheGetAll_onlySupportedEngines :
    (∀ c : CacheCluster, c.engine ≠ "redis" → c.engine ≠ "memcached" →
      processCluster c = [])
    ∧ (∀ (pages : List (List CacheCluster)) (s : ResourceSummary),
        s ∈ elasticacheGetAll pages →
        ∃ c ∈ pages.flatten, (c.engine = "redis" ∨ c.engine = "memcached")
          ∧ s ∈ processCluster c) := by
  constructor
  · intro c h1 h2
    unfold processCluster
    rw [if_neg h1, if_neg h2]
  · intro pages s hs
    unfold elasticacheGetAll at hs
    rcases List.mem_flatMap.mp hs with ⟨c, hc, hsc⟩
    refine ⟨c, hc, ?_, hsc⟩
    by_cases h1 : c.engine = "redis"
    · exact Or.inl h1
    · by_cases h2 : c.engine = "memcached"
      · exact Or.inr h2
      · rw [show processCluster c = [] by
            unfold processCluster; rw [if_neg h1, if_neg h2]] at hsc
        cases hsc

/-- C10 witness: a cluster with engine `"tile38"` is skipped. -/
theorem elasticacheGetAll_onlySupportedEngines_witness :
    processCluster
      { cacheClusterId := "x", replicationGroupId := none, engine := "tile38",
        cacheNodeType := "t", preferredAvailabilityZone := "z",
        cacheNodes := [] } = [] :=
  elasticacheGetAll_onlySupportedEngines.1 _ (by decide) (by decide)

/-- Unfolding `pageLoop`: a token-free page ends the loop, appending its
blobs and making no further call. -/
theorem pageLoop_last (cw : CWClient) (queries : List MetricDataQuery)
    (fuel : Nat) (rs : List MetricDataResult) (acc : List MetricBlob) (calls : Nat) :
    pageLoop cw queries fuel { metricDataResults := rs, nextToken := none } acc calls
      = .ok (acc ++ blobsOfResults rs) calls := by
  cases fuel <;> rfl

/-- Unfolding `pageLoop`: a page with a token whose re-submission succeeds
appends its blobs, counts one call, and continues on the next page. -/
theorem pageLoop_continue (cw : CWClient) (queries : List MetricDataQuery)
    (fuel : Nat) (rs : List MetricDataResult) (t : String)
    (next : GetMetricDataOutput) (acc : List MetricBlob) (calls : Nat)
    (hcw : cw { metricDataQueries := queries, nextToken := some t } = .ok next) :
    pageLoop cw queries (fuel + 1) { metricDataResults := rs, nextToken := some t } acc calls
      = pageLoop cw queries fuel next (acc ++ blobsOfResults rs) (calls + 1) := by
  conv_lhs => unfold pageLoop
  rw [hcw]

/-- Unfolding `pageLoop`: a page with a token whose re-submission errors
keeps the blobs appended so far and reports the failed call. -/
theorem pageLoop_fail (cw : CWClient) (queries : List MetricDataQuery)
    (fuel : Nat) (rs : List MetricDataResult) (t e : String)
    (acc : List MetricBlob) (calls : Nat)
    (hcw : cw { metricDataQueries := queries, nextToken := some t } = .error e) :
    pageLoop cw queries (fuel + 1) { metricDataResults := rs, nextToken := some t } acc calls
      = .failed (acc ++ blobsOfResults rs) (calls + 1) := by
  unfold pageLoop
  rw [hcw]

/-- A chained run of pages makes the loop append exactly the per-page blobs
in page order and issue one continuation call per further page. -/
theorem pageLoop_okChain (cw : CWClient) (queries : List MetricDataQuery)
    (ps : List GetMetricDataOutput) :
    ∀ (d : GetMetricDataOutput) (fuel : Nat) (acc : List MetricBlob) (calls : Nat),
      chainFrom cw queries d ps → ps.length ≤ fuel →
      pageLoop cw queries fuel d acc calls
        = .ok (acc ++ (d :: ps).flatMap pageBlobs) (calls + ps.length) := by
  induction ps with
  | nil =>
    intro d fuel acc calls hch _
    obtain ⟨rs, tok⟩ := d
    have htok : tok = none := hch
    subst htok
    rw [pageLoop_last]
    simp [pageBlobs]
  | cons p ps ih =>
    intro d fuel acc calls hch hfuel
    obtain ⟨rs, tok⟩ := d
    obtain ⟨t, ht, hcwt, hrest⟩ := hch
    have htok : tok = some t := ht
    subst htok
    cases fuel with
    | zero => exact absurd hfuel (by simp)
    | succ fuel =>
      rw [pageLoop_continue cw queries fuel rs t p acc calls hcwt]
      rw [ih p fuel (acc ++ blobsOfResults rs) (calls + 1) hrest
        (Nat.le_of_succ_le_succ hfuel)]
      simp [pageBlobs, List.append_assoc]
      omega

/-- A chained run of pages followed by a failing continuation call keeps the
per-page blobs of all delivered pages and aborts. -/
theorem pageLoop_failChain (cw : CWClient) (queries : List MetricDataQuery)
    (ps : List GetMetricDataOutput) :
    ∀ (d : GetMetricDataOutput) (fuel : Nat) (acc : List MetricBlob) (calls : Nat),
      chainThenFail cw queries d ps → ps.length + 1 ≤ fuel →
      pageLoop cw queries fuel d acc calls
        = .failed (acc ++ (d :: ps).flatMap pageBlobs) (calls + ps.length + 1) := by
  induction ps with
  | nil =>
    intro d fuel acc calls hch hfuel
    obtain ⟨rs, tok⟩ := d
    obtain ⟨t, ht, e, hcwt⟩ := hch
    have htok : tok = some t := ht
    subst htok
    cases fuel with
    | zero => exact absurd hfuel (by simp)
    | succ fuel =>
      rw [pageLoop_fail cw queries fuel rs t e acc calls hcwt]
      simp [pageBlobs]
  | cons p ps ih =>
    intro d fuel acc calls hch hfuel
    obtain ⟨rs, tok⟩ := d
    obtain ⟨t, ht, hcwt, hrest⟩ := hch
    have htok : tok = some t := ht
    subst htok
    cases fuel with
    | zero => exact absurd hfuel (by simp)
    | succ fuel =>
      rw [pageLoop_continue cw queries fuel rs t p acc calls hcwt]
      rw [ih p fuel (acc ++ blobsOfResults rs) (calls + 1) hrest
        (Nat.le_of_succ_le_succ hfuel)]
      simp [pageBlobs, List.append_assoc]
      omega

/-- Filtering the per-page blobs of a page run down to one metric name keeps
one filtered-results block per page, in page order. -/
theorem pages_filterName (ps : List GetMetricDataOutput) (nm : String) :
    (ps.flatMap pageBlobs).filter (fun b => b.name == nm)
      = ps.flatMap fun p =>
          blobsOfResults (p.metricDataResults.filter (fun m => m.id == nm)) := by
  induction ps with
  | nil => rfl
  | cons p ps ih =>
    simp only [List.flatMap_cons, List.filter_append, ih]
    congr 1
    show (blobsOfResults p.metricDataResults).filter (fun b => b.name == nm)
      = blobsOfResults (p.metricDataResults.filter (fun m => m.id == nm))
    induction p.metricDataResults with
    | nil => rfl
    | cons r rs ihr =>
      by_cases h : (r.id == nm) = true
      · simp [blobsOfResults, List.filter_cons, h] at ihr ⊢
        exact ihr
      · simp only [Bool.not_eq_true] at h
        simp [blobsOfResults, List.filter_cons, h] at ihr ⊢
        exact ihr

/-- The values carried by a block of blobs are the underlying results'
values, concatenated in order. -/
theorem blobs_values (rs : List MetricDataResult) :
    (blobsOfResults rs).flatMap MetricBlob.values
      = rs.flatMap MetricDataResult.values := by
  induction rs with
  | nil => rfl
  | cons r rs ih => simp [blobsOfResults, List.flatMap_cons] at ih ⊢; exact ih

/-- Unfolding `fetchTargets`: when the first query of a statistic group
succeeds, the group proceeds into the pagination loop. -/
theorem fetchTargets_cons_ok (cw : CWClient) (spec : ResourceMetricTargets)
    (st : String) (ms : List String) (rest : List (String × List String))
    (acc : List MetricBlob) (calls fuel : Nat) (d : GetMetricDataOutput)
    (hcw : cw { metricDataQueries := buildQueries spec st ms
                nextToken := none } = .ok d) :
    fetchTargets cw spec fuel ((st, ms) :: rest) acc calls
      = match pageLoop cw (buildQueries spec st ms) fuel d acc (calls + 1) with
        | .ok acc2 calls2 => fetchTargets cw spec fuel rest acc2 calls2
        | .failed acc2 calls2 => (acc2, calls2, .aborted)
        | .noFuel acc2 calls2 => (acc2, calls2, .noFuel) := by
  conv_lhs => unfold fetchTargets
  rw [hcw]

/-- C3 amended: for every statistic-kind whose metric-data fetch returns `k`
pages (the first `k-1` with continuation tokens, the last without), exactly
`k` `GetMetricData` queries are issued — the identical batch, differing only
in the token — and what is recorded for each requested metric name is not
one merged series but `k` separate series, one per page in page order, each
carrying that page's values; their in-order concatenation equals the
concatenation of that metric's values across all `k` pages. -/
theorem fetch_paginationMerge (cw : CWClient) (spec : ResourceMetricTargets)
    (st : String) (ms : List String) (rest : List (String × List String))
    (acc : List MetricBlob) (calls fuel : Nat)
    (d : GetMetricDataOutput) (ps : List GetMetricDataOutput)
    (hcw : cw { metricDataQueries := buildQueries spec st ms
                nextToken := none } = .ok d)
    (hch : chainFrom cw (buildQueries spec st ms) d ps)
    (hfuel : ps.length ≤ fuel) :
    fetchTargets cw spec fuel ((st, ms) :: rest) acc calls
      = fetchTargets cw spec fuel rest (acc ++ (d :: ps).flatMap pageBlobs)
          (calls + 1 + ps.length)
    ∧ (∀ nm : String,
        ((d :: ps).flatMap pageBlobs).filter (fun b => b.name == nm)
          = (d :: ps).flatMap fun p =>
              blobsOfResults (p.metricDataResults.filter (fun m => m.id == nm)))
    ∧ (∀ nm : String,
        (((d :: ps).flatMap pageBlobs).filter (fun b => b.name == nm)).flatMap
            MetricBlob.values
          = (d :: ps).flatMap fun p =>
              (p.metricDataResults.filter (fun m => m.id == nm)).flatMap
                MetricDataResult.values) := by
  refine ⟨?_, fun nm => pages_filterName _ nm, fun nm => ?_⟩
  · rw [fetchTargets_cons_ok cw spec st ms rest acc calls fuel d hcw,
      pageLoop_okChain cw (buildQueries spec st ms) ps d fuel acc
        (calls + 1) hch hfuel]
  · rw [pages_filterName (d :: ps) nm]
    induction (d :: ps) with
    | nil => rfl
    | cons p pages ih =>
      simp only [List.flatMap_cons, List.flatMap_append, ih]
      rw [blobs_values]

/-- C3 counterexample: with a two-page response (values `[1,2]` then `[3]`
for `consumedreadcapacityunits`), the fetch issues exactly 2 queries but
records TWO series under that name — one per page — not a single
concatenated series `[1,2,3]` as the claim states. -/
theorem fetch_singleSeriesClaim_cex :
    (fetchMetricsForResource twoPageClient 5 ordersTable).1.metrics
      = [{ name := "consumedreadcapacityunits", values := [1, 2] },
         { name := "consumedreadcapacityunits", values := [3] }]
    ∧ ((fetchMetricsForResource twoPageClient 5 ordersTable).1.metrics.filter
        (fun b => b.name == "consumedreadcapacityunits")).length = 2
    ∧ (fetchMetricsForResource twoPageClient 5 ordersTable).1.metrics
        ≠ [{ name := "consumedreadcapacityunits", values := [1, 2, 3] }]
    ∧ (fetchMetricsForResource twoPageClient 5 ordersTable).2.1 = 2 := by decide

/-- C3 witness: the amended pagination-merge theorem applied to the
two-page client on a DynamoDB table resource. -/
theorem fetch_paginationMerge_witness :
    fetchTargets twoPageClient (getMetricTargets ordersTable) 5
        [("Sum", ["ConsumedReadCapacityUnits", "ConsumedWriteCapacityUnits",
          "ProvisionedReadCapacityUnits", "ProvisionedWriteCapacityUnits",
          "TimeToLiveDeletedItemCount"])] [] 0
      = fetchTargets twoPageClient (getMetricTargets ordersTable) 5 []
          ([] ++ (pageOne :: [pageTwo]).flatMap pageBlobs) (0 + 1 + 1) :=
  (fetch_paginationMerge twoPageClient (getMetricTargets ordersTable) "Sum"
    ["ConsumedReadCapacityUnits", "ConsumedWriteCapacityUnits",
     "ProvisionedReadCapacityUnits", "ProvisionedWriteCapacityUnits",
     "TimeToLiveDeletedItemCount"] [] [] 0 5 pageOne [pageTwo]
    rfl ⟨"tok1", rfl, rfl, rfl⟩ (by decide)).1

/-- C4 amended: an error on any page for a statistic-kind aborts that
resource's remaining fetch work (the remaining groups are never reached)
while the run continues; the failed kind contributes zero series when the
failure is on the FIRST page, but a failure on a continuation page leaves
the values of that kind's earlier pages appended. -/
theorem fetch_abortSemantics (cw : CWClient) (spec : ResourceMetricTargets)
    (st : String) (ms : List String) (rest : List (String × List String))
    (acc : List MetricBlob) (calls fuel : Nat) :
    (∀ e, cw { metricDataQueries := buildQueries spec st ms
               nextToken := none } = .error e →
      fetchTargets cw spec fuel ((st, ms) :: rest) acc calls
        = (acc, calls + 1, .aborted))
    ∧ (∀ (d : GetMetricDataOutput) (ps : List GetMetricDataOutput),
        cw { metricDataQueries := buildQueries spec st ms
             nextToken := none } = .ok d →
        chainThenFail cw (buildQueries spec st ms) d ps →
        ps.length + 1 ≤ fuel →
        fetchTargets cw spec fuel ((st, ms) :: rest) acc calls
          = (acc ++ (d :: ps).flatMap pageBlobs, calls + 1 + ps.length + 1,
             .aborted)) := by
  constructor
  · intro e hcw
    conv_lhs => unfold fetchTargets
    rw [hcw]
  · intro d ps hcw hch hfuel
    rw [fetchTargets_cons_ok cw spec st ms rest acc calls fuel d hcw,
      pageLoop_failChain cw (buildQueries spec st ms) ps d fuel acc
        (calls + 1) hch hfuel]

/-- C4 counterexample: a continuation-page failure leaves the first page's
series appended, so the failed statistic-kind contributes a non-zero number
of series, contradicting the claim's "contributes zero MetricSeries". -/
theorem fetch_zeroSeriesClaim_cex :
    (fetchMetricsForResource failSecondClient 5 ordersTable).2.2
      = FetchOutcome.aborted
    ∧ (fetchMetricsForResource failSecondClient 5 ordersTable).1.metrics
        = [{ name := "consumedreadcapacityunits", values := [1, 2] }] := by decide

/-- C4 witness: both abort shapes instantiated — a first-page failure keeps
nothing, a second-page failure keeps page one's series. -/
theorem fetch_abortSemantics_witness :
    fetchTargets alwaysFailClient (getMetricTargets ordersTable) 5
        [("Sum", ["ConsumedReadCapacityUnits", "ConsumedWriteCapacityUnits",
          "ProvisionedReadCapacityUnits", "ProvisionedWriteCapacityUnits",
          "TimeToLiveDeletedItemCount"])] [] 0
      = ([], 0 + 1, .aborted)
    ∧ fetchTargets failSecondClient (getMetricTargets ordersTable) 5
        [("Sum", ["ConsumedReadCapacityUnits", "ConsumedWriteCapacityUnits",
          "ProvisionedReadCapacityUnits", "ProvisionedWriteCapacityUnits",
          "TimeToLiveDeletedItemCount"])] [] 0
      = ([] ++ (pageOne :: []).flatMap pageBlobs, 0 + 1 + 0 + 1, .aborted) := by
  constructor
  · exact (fetch_abortSemantics alwaysFailClient (getMetricTargets ordersTable)
      "Sum" ["ConsumedReadCapacityUnits", "ConsumedWriteCapacityUnits",
        "ProvisionedReadCapacityUnits", "ProvisionedWriteCapacityUnits",
        "TimeToLiveDeletedItemCount"] [] [] 0 5).1 "throttled" rfl
  · exact (fetch_abortSemantics failSecondClient (getMetricTargets ordersTable)
      "Sum" ["ConsumedReadCapacityUnits", "ConsumedWriteCapacityUnits",
        "ProvisionedReadCapacityUnits", "ProvisionedWriteCapacityUnits",
        "TimeToLiveDeletedItemCount"] [] [] 0 5).2 pageOne []
      rfl ⟨"tok1", rfl, "throttled", rfl⟩ (by decide)

/-- C5: when resource `b`'s fetch raises an error while `a`'s and `c`'s
succeed, the run does not abort: the report has exactly one row per
resource, in order, and `b`'s row keeps its id, its type, and whatever
metric series its fetch had accumulated before the error (possibly none). -/
theorem run_partialFailureIsolation (cw : CWClient) (fuel : Nat)
    (a b c : ResourceSummary)
    (ha : (fetchMetricsForResource cw fuel a).2.2 = FetchOutcome.completed)
    (hb : (fetchMetricsForResource cw fuel b).2.2 = FetchOutcome.aborted)
    (hc : (fetchMetricsForResource cw fuel c).2.2 = FetchOutcome.completed) :
    writeOutResults (runFetch cw fuel [a, b, c])
      = [rowOf (fetchMetricsForResource cw fuel a).1,
         rowOf (fetchMetricsForResource cw fuel b).1,
         rowOf (fetchMetricsForResource cw fuel c).1]
    ∧ (rowOf (fetchMetricsForResource cw fuel b).1).resourceId = b.id
    ∧ (rowOf (fetchMetricsForResource cw fuel b).1).rtype = b.type
    ∧ (rowOf (fetchMetricsForResource cw fuel b).1).metrics
        = (fetchMetricsForResource cw fuel b).1.metrics :=
  ⟨rfl, rfl, rfl, rfl⟩

/-- C5 witness: DynamoDB tables `orders` and `users` complete while the
redis node's fetch aborts on its first query; all three rows are written. -/
theorem run_partialFailureIsolation_witness :
    writeOutResults (runFetch failCacheClient 5 [ordersTable, redisNodeRes, usersTable])
      = [rowOf (fetchMetricsForResource failCacheClient 5 ordersTable).1,
         rowOf (fetchMetricsForResource failCacheClient 5 redisNodeRes).1,
         rowOf (fetchMetricsForResource failCacheClient 5 usersTable).1] :=
  (run_partialFailureIsolation failCacheClient 5 ordersTable redisNodeRes usersTable
    (by decide) (by decide) (by decide)).1
